import Mathlib

/-!
Verification of the stress-prediction pipeline of `app.py` (route `predictor`):
feature collection from the submitted form, the classifier adapter, the
threshold-based recommendation engine, and the report packer.

Conventions of the shallow embedding:
* A submitted HTTP form is a partial map from field names to raw strings.
* Python ints are modelled as `Int`; the classifier's probabilities as `ℚ`.
* Python code that can raise returns `Except String _`; the route's
  `try/except` is an explicit `match` on that result.
-/

/-- A submitted HTTP form: each field name is either absent or a raw string. -/
def Form : Type := String → Option String

/-- Drop leading whitespace characters from a character list. -/
def dropSpaces : List Char → List Char
  | [] => []
  | c :: cs => if c.isWhitespace then dropSpaces cs else c :: cs

/-- Accumulate a decimal digit run; fails on the first non-digit. -/
def pyIntDigitsGo (acc : Nat) : List Char → Option Nat
  | [] => some acc
  | c :: cs =>
    if c.isDigit then pyIntDigitsGo (acc * 10 + (c.toNat - 48)) cs
    else none

/-- Parse a non-empty decimal digit run. -/
def pyIntDigits : List Char → Option Nat
  | [] => none
  | c :: cs =>
    if c.isDigit then pyIntDigitsGo (c.toNat - 48) cs
    else none

/-- Models Python's built-in `int(s)` applied to a string: surrounding
whitespace is ignored, an optional sign is accepted, then a non-empty run
of decimal digits; `none` models the `ValueError` raised on any other
input. -/
def pyInt? (s : String) : Option Int :=
  match dropSpaces ((dropSpaces (s.data.reverse)).reverse) with
  | '-' :: cs => (pyIntDigits cs).map (fun n => -(n : Int))
  | '+' :: cs => (pyIntDigits cs).map (fun n => (n : Int))
  | cs => (pyIntDigits cs).map (fun n => (n : Int))

/-- The fixed 20-name feature schedule `MODEL_FEATURE_ORDER` of `app.py`. -/
def MODEL_FEATURE_ORDER : List String :=
  ["anxiety_level", "self_esteem", "mental_health_history", "depression",
   "headache", "blood_pressure", "sleep_quality", "breathing_problem",
   "noise_level", "living_conditions", "safety", "basic_needs",
   "academic_performance", "study_load", "teacher_student_relationship",
   "future_career_concerns", "social_support", "peer_pressure",
   "extracurricular_activities", "bullying"]

/-- The static advice lookup table `RECOMMENDATIONS_DB` of `app.py`. -/
def RECOMMENDATIONS_DB : List (String × String) :=
  [("anxiety_level", "Try practicing the 4-7-8 breathing technique. Also, consider mindfulness apps for guided meditation."),
   ("self_esteem", "Practice positive self-talk. Each day, write down three things you did well, no matter how small."),
   ("depression", "Engage in light physical activity, like a 15-minute walk outside. Sunlight and movement can have a significant positive impact on mood."),
   ("sleep_quality", "Establish a consistent sleep schedule. Avoid screens for at least an hour before bed to improve your natural sleep cycle."),
   ("academic_performance", "Break down large assignments into smaller, manageable tasks. Use a planner to schedule your work."),
   ("social_support", "Schedule regular calls or meetups with friends and family. A strong social connection is a powerful buffer against stress.")]

/-- Lookup in the static advice table: `RECOMMENDATIONS_DB.get(feature)`. -/
def recLookup (feature : String) : Option String :=
  RECOMMENDATIONS_DB.lookup feature

/-- One collected value: `int(request.form.get(feature, 5))` with the
fallback to `5` when the field is absent or `int` raises. -/
def collectValue (form : Form) (feature : String) : Int :=
  match form feature with
  | none => 5
  | some s => (pyInt? s).getD 5

/-- The ordered numeric list `input_data` handed to the classifier. -/
def input_data (form : Form) : List Int :=
  MODEL_FEATURE_ORDER.map (collectValue form)

/-- The `feature_values` dict, as an association list in insertion order
(Python dicts preserve insertion order; the keys are the schedule names). -/
def feature_values (form : Form) : List (String × Int) :=
  MODEL_FEATURE_ORDER.map (fun f => (f, collectValue form f))

/-- The high threshold of the recommendation engine (`high_threshold = 7`). -/
def high_threshold : Int := 7

/-- The low threshold of the recommendation engine (`low_threshold = 3`). -/
def low_threshold : Int := 3

/-- One recommendation entry (`{"factor": ..., "value": ..., "tip": ...}`). -/
structure RecItem where
  factor : String
  value : Int
  tip : String
deriving DecidableEq, Repr

/-- The generic fallback tip used for an attention item whose feature is not
a key of the lookup table. -/
def genericHighTip : String :=
  "Consider consulting a counselor or adopting stress-reduction strategies relevant to this area."

/-- The generic low-risk message used for a maintain item whose feature is
not a key of the lookup table. -/
def genericLowTip : String :=
  "This parameter is in a low-risk range. Maintain your current habits that support this."

/-- The attention item built for feature `f` with value `v`. -/
def affItem (f : String) (v : Int) : RecItem :=
  ⟨f, v, (recLookup f).getD genericHighTip⟩

/-- The maintain item built for feature `f` with value `v`. -/
def maintItem (f : String) (v : Int) : RecItem :=
  ⟨f, v,
    match recLookup f with
    | some t => "Good — keep doing this. " ++ t
    | none => genericLowTip⟩

/-- The `affected` list built by the bucketing loop: an item is appended for
each feature whose value passes the `value >= high_threshold` branch. -/
def affectedOf : List (String × Int) → List RecItem
  | [] => []
  | (f, v) :: rest =>
    if high_threshold ≤ v then affItem f v :: affectedOf rest
    else affectedOf rest

/-- The `maintain` list built by the bucketing loop: an item is appended for
each feature that falls to the `elif value <= low_threshold` branch. -/
def maintainOf : List (String × Int) → List RecItem
  | [] => []
  | (f, v) :: rest =>
    if high_threshold ≤ v then maintainOf rest
    else if v ≤ low_threshold then maintItem f v :: maintainOf rest
    else maintainOf rest

/-- The stress label list `stress_labels = ["Low", "Medium", "High"]`. -/
def stress_labels : List String := ["Low", "Medium", "High"]

/-- Inner loop of `np.argmax`: scan the remaining entries, keeping the index
of the current best and replacing it only on a strictly larger value (so the
first occurrence of the maximum wins). -/
def npArgmaxAux : List ℚ → Nat → Nat → ℚ → Nat
  | [], _, best, _ => best
  | p :: rest, i, best, bestVal =>
    if bestVal < p then npArgmaxAux rest (i + 1) i p
    else npArgmaxAux rest (i + 1) best bestVal

/-- Models `np.argmax` on a 1-D array: index of the first maximal entry;
`none` models the `ValueError` it raises on an empty array. -/
def npArgmax? : List ℚ → Option Nat
  | [] => none
  | p :: rest => some (npArgmaxAux rest 1 0 p)

/-- Character-list worker for `pyTitle`: the boolean records whether the
previous character was a letter. -/
def pyTitleGo : Bool → List Char → List Char
  | _, [] => []
  | prevAlpha, c :: cs =>
    if c.isAlpha then
      (if prevAlpha then c.toLower else c.toUpper) :: pyTitleGo true cs
    else c :: pyTitleGo false cs

/-- Models Python's `str.title()` on the ASCII feature names: the first
letter of every letter-run is uppercased, the rest lowercased. -/
def pyTitle (s : String) : String :=
  ⟨pyTitleGo false s.data⟩

/-- One line of the packed recommendations text:
`f"{human} ({value}): {tip}"` with the factor name humanized by
`.replace("_", " ").title()`. -/
def itemLine (r : RecItem) : String :=
  pyTitle (String.replace (r.factor) ("_") (" ")) ++ " (" ++ toString r.value ++ "): " ++ r.tip

/-- The `rec_lines` list built by the packer: an `Affected Parameters:`
section when `affected` is non-empty, then (when `maintain` is non-empty) a
blank separator if lines already exist followed by a `Parameters to
Maintain:` section, and the fallback line when nothing was emitted. -/
def packLines (affected maintain : List RecItem) : List String :=
  let rl := if affected.isEmpty then ([] : List String)
            else "Affected Parameters:" :: affected.map itemLine
  let rl := if maintain.isEmpty then rl
            else (if rl.isEmpty then rl else rl ++ [""])
                 ++ "Parameters to Maintain:" :: maintain.map itemLine
  if rl.isEmpty then
    ["No specific high-risk parameters detected. Inputs look balanced."]
  else rl

/-- Joining the packed lines: `recommendations_packed = "\n".join(rec_lines)`. -/
def recommendations_packed (affected maintain : List RecItem) : String :=
  String.intercalate ("\n") (packLines affected maintain)

/-- The structured `prediction_result` dict built on a successful scoring. -/
structure PredictionResult where
  level : String
  probLow : ℚ
  probMedium : ℚ
  probHigh : ℚ
  recommendations : List RecItem
  maintain : List RecItem
  feature_values : List (String × Int)
  packed_recommendations : String
deriving Repr

/-- The body of the route's `try` block (everything that can raise): collect
the features, call the classifier, take the arg-max label, bucket, index the
probability triple, and pack.  An `Except.error` models a raised Python
exception; the side-effect-only chart generation has its own inner
`try/except` and cannot abort scoring, so it is omitted. -/
def score (classifier : List Int → Except String (List ℚ)) (form : Form) :
    Except String PredictionResult :=
  match classifier (input_data form) with
  | Except.error e => Except.error e
  | Except.ok probabilities =>
    match npArgmax? probabilities with
    | none => Except.error ("ValueError: attempt to get argmax of an empty sequence")
    | some predicted_index =>
      match stress_labels.get? predicted_index with
      | none => Except.error ("IndexError: list index out of range")
      | some stress_level =>
        let fv := feature_values form
        let affected := affectedOf fv
        let maintain := maintainOf fv
        match probabilities.get? 0, probabilities.get? 1, probabilities.get? 2 with
        | some pL, some pM, some pH =>
          Except.ok
            { level := stress_level,
              probLow := pL * 100, probMedium := pM * 100, probHigh := pH * 100,
              recommendations := affected, maintain := maintain,
              feature_values := fv,
              packed_recommendations := recommendations_packed affected maintain }
        | _, _, _ => Except.error ("IndexError: index out of bounds")

/-- The flash message shown when the model object is `None`. -/
def MODEL_NOT_LOADED_MSG : String :=
  "The prediction model is not loaded. Please contact the administrator."

/-- The flash message shown by the route's `except` handler. -/
def PREDICTION_ERROR_MSG : String :=
  "An error occurred during prediction. Please try again."

/-- What a POST to the `predictor` route leaves behind for the template:
the flashed messages and the optional `prediction_result`. -/
structure PredictorOutcome where
  flashes : List (String × String)
  prediction : Option PredictionResult
deriving Repr

/-- The POST branch of the `predictor` route.  The outer `Except` is the
exception channel to the caller (Flask): an `Except.error` here would be an
exception escaping the route handler.  When the model failed to load the
route only flashes; otherwise the `try/except` around scoring converts any
raised exception into a generic error flash. -/
def predictorPost (modelLoaded : Bool)
    (classifier : List Int → Except String (List ℚ)) (form : Form) :
    Except String PredictorOutcome :=
  if !modelLoaded then
    Except.ok { flashes := [(MODEL_NOT_LOADED_MSG, "error")], prediction := none }
  else
    match score classifier form with
    | Except.error _ =>
      Except.ok { flashes := [(PREDICTION_ERROR_MSG, "error")], prediction := none }
    | Except.ok r =>
      Except.ok { flashes := [], prediction := some r }

/-! ## Helper lemmas -/

lemma feature_values_map_fst (form : Form) :
    (feature_values form).map Prod.fst = MODEL_FEATURE_ORDER := by
  simp only [feature_values, List.map_map, Function.comp]
  exact List.map_id MODEL_FEATURE_ORDER

lemma nodup_MODEL_FEATURE_ORDER : MODEL_FEATURE_ORDER.Nodup := by decide

lemma mem_feature_values {form : Form} {f : String} {v : Int} :
    (f, v) ∈ feature_values form ↔
      f ∈ MODEL_FEATURE_ORDER ∧ v = collectValue form f := by
  simp only [feature_values, List.mem_map, Prod.mk.injEq]
  constructor
  · rintro ⟨g, hg, rfl, rfl⟩
    exact ⟨hg, rfl⟩
  · rintro ⟨hf, rfl⟩
    exact ⟨f, hf, rfl, rfl⟩

lemma affectedOf_eq_filterMap (fv : List (String × Int)) :
    affectedOf fv =
      fv.filterMap (fun p =>
        if high_threshold ≤ p.2 then some (affItem p.1 p.2) else none) := by
  induction fv with
  | nil => rfl
  | cons p rest ih =>
    obtain ⟨f, v⟩ := p
    by_cases h : high_threshold ≤ v <;>
      simp [affectedOf, h, ih, List.filterMap_cons]

lemma maintainOf_eq_filterMap (fv : List (String × Int)) :
    maintainOf fv =
      fv.filterMap (fun p =>
        if high_threshold ≤ p.2 then none
        else if p.2 ≤ low_threshold then some (maintItem p.1 p.2) else none) := by
  induction fv with
  | nil => rfl
  | cons p rest ih =>
    obtain ⟨f, v⟩ := p
    by_cases h : high_threshold ≤ v
    · simp [maintainOf, h, ih, List.filterMap_cons]
    · by_cases h2 : v ≤ low_threshold <;>
        simp [maintainOf, h, h2, ih, List.filterMap_cons]

lemma mem_affectedOf {r : RecItem} {fv : List (String × Int)} :
    r ∈ affectedOf fv ↔
      ∃ p, p ∈ fv ∧ high_threshold ≤ p.2 ∧ r = affItem p.1 p.2 := by
  rw [affectedOf_eq_filterMap, List.mem_filterMap]
  constructor
  · rintro ⟨p, hp, hsome⟩
    by_cases h : high_threshold ≤ p.2
    · simp only [h, if_true, Option.some.injEq] at hsome
      exact ⟨p, hp, h, hsome.symm⟩
    · simp [h] at hsome
  · rintro ⟨p, hp, h, rfl⟩
    exact ⟨p, hp, by simp [h]⟩

lemma mem_maintainOf {r : RecItem} {fv : List (String × Int)} :
    r ∈ maintainOf fv ↔
      ∃ p, p ∈ fv ∧ ¬ high_threshold ≤ p.2 ∧ p.2 ≤ low_threshold ∧
        r = maintItem p.1 p.2 := by
  rw [maintainOf_eq_filterMap, List.mem_filterMap]
  constructor
  · rintro ⟨p, hp, hsome⟩
    by_cases h : high_threshold ≤ p.2
    · simp [h] at hsome
    · by_cases h2 : p.2 ≤ low_threshold
      · simp only [h, if_false, h2, if_true, Option.some.injEq] at hsome
        exact ⟨p, hp, h, h2, hsome.symm⟩
      · simp [h, h2] at hsome
  · rintro ⟨p, hp, h, h2, rfl⟩
    exact ⟨p, hp, by simp [h, h2]⟩

lemma affected_factors_sublist (fv : List (String × Int)) :
    ((affectedOf fv).map RecItem.factor).Sublist (fv.map Prod.fst) := by
  induction fv with
  | nil => simp [affectedOf]
  | cons p rest ih =>
    obtain ⟨f, v⟩ := p
    by_cases h : high_threshold ≤ v
    · simpa [affectedOf, h, affItem] using ih.cons₂ f
    · simpa [affectedOf, h] using ih.cons f

lemma maintain_factors_sublist (fv : List (String × Int)) :
    ((maintainOf fv).map RecItem.factor).Sublist (fv.map Prod.fst) := by
  induction fv with
  | nil => simp [maintainOf]
  | cons p rest ih =>
    obtain ⟨f, v⟩ := p
    by_cases h : high_threshold ≤ v
    · simpa [maintainOf, h] using ih.cons f
    · by_cases h2 : v ≤ low_threshold
      · simpa [maintainOf, h, h2, maintItem] using ih.cons₂ f
      · simpa [maintainOf, h, h2] using ih.cons f

lemma collect_of_mem_feature_values {form : Form} {f : String} {v : Int}
    (h : (f, v) ∈ feature_values form) : v = collectValue form f :=
  (mem_feature_values.mp h).2

lemma snd_of_mem_feature_values {form : Form} {p : String × Int}
    (hp : p ∈ feature_values form) : p.2 = collectValue form p.1 := by
  obtain ⟨f, v⟩ := p
  exact collect_of_mem_feature_values hp

lemma lookup_map_self {l : List String} {g : String → Int} {name : String}
    (h : name ∈ l) :
    (l.map (fun f => (f, g f))).lookup name = some (g name) := by
  induction l with
  | nil => simp at h
  | cons a l ih =>
    rcases eq_or_ne name a with rfl | hne
    · simp [List.lookup]
    · have hmem : name ∈ l := by
        rcases List.mem_cons.mp h with h1 | h1
        · exact absurd h1 hne
        · exact h1
      have hbeq : (name == a) = false := beq_eq_false_iff_ne.mpr hne
      simp [List.lookup, hbeq, ih hmem]

/-- The empty submission: every field absent. -/
def form0 : Form := fun _ => none

/-- An example submission: anxiety high, sleep quality low, rest absent. -/
def exampleForm : Form := fun f =>
  if f = "anxiety_level" then some ("9")
  else if f = "sleep_quality" then some ("2")
  else none

/-- An example submission with out-of-range and non-numeric values. -/
def exampleForm2 : Form := fun f =>
  if f = "anxiety_level" then some ("99")
  else if f = "self_esteem" then some ("0")
  else if f = "bullying" then some ("abc")
  else none

lemma npArgmax_triple (p0 p1 p2 : ℚ) :
    npArgmax? [p0, p1, p2] =
      some (if p0 < p1 then (if p1 < p2 then 2 else 1)
            else if p0 < p2 then 2 else 0) := by
  by_cases h1 : p0 < p1
  · by_cases h2 : p1 < p2 <;> simp [npArgmax?, npArgmaxAux, h1, h2]
  · by_cases h2 : p0 < p2 <;> simp [npArgmax?, npArgmaxAux, h1, h2]

/-! ## Claim theorems -/

/-- Claim C1: each collected feature is classified independently against the
fixed thresholds high = 7 and low = 3: a value at least 7 puts the feature
in the attention bucket with its tip from the static lookup or the generic
fallback, a value at most 3 puts it in the maintain bucket with the
prefixed lookup tip or the generic low-risk message, and a value strictly
between 3 and 7 places it in neither bucket. -/
theorem C1_threshold_classification (form : Form) (f : String) (v : Int)
    (h : (f, v) ∈ feature_values form) :
    (7 ≤ v → affItem f v ∈ affectedOf (feature_values form)) ∧
    (v ≤ 3 → maintItem f v ∈ maintainOf (feature_values form)) ∧
    (3 < v → v < 7 →
      (∀ r, r ∈ affectedOf (feature_values form) → r.factor ≠ f) ∧
      (∀ r, r ∈ maintainOf (feature_values form) → r.factor ≠ f)) := by
  have hval := collect_of_mem_feature_values h
  refine ⟨?_, ?_, ?_⟩
  · intro hv
    exact mem_affectedOf.mpr ⟨(f, v), h, hv, rfl⟩
  · intro hv
    have hlt : ¬ high_threshold ≤ v := by
      simp only [high_threshold]
      omega
    exact mem_maintainOf.mpr ⟨(f, v), h, hlt, hv, rfl⟩
  · intro h3 h7
    constructor
    · intro r hr hrf
      obtain ⟨p, hp, hge, rfl⟩ := mem_affectedOf.mp hr
      have hfac : p.1 = f := hrf
      have hsnd := snd_of_mem_feature_values hp
      rw [hfac, ← hval] at hsnd
      rw [hsnd] at hge
      simp only [high_threshold] at hge
      omega
    · intro r hr hrf
      obtain ⟨p, hp, _, hle, rfl⟩ := mem_maintainOf.mp hr
      have hfac : p.1 = f := hrf
      have hsnd := snd_of_mem_feature_values hp
      rw [hfac, ← hval] at hsnd
      rw [hsnd] at hle
      simp only [low_threshold] at hle
      omega

/-- Witness for C1 at a concrete form: anxiety 9 lands in the attention
bucket and sleep quality 2 lands in the maintain bucket. -/
theorem C1_threshold_classification_witness :
    affItem ("anxiety_level") 9 ∈ affectedOf (feature_values exampleForm) ∧
    maintItem ("sleep_quality") 2 ∈ maintainOf (feature_values exampleForm) :=
  ⟨(C1_threshold_classification exampleForm ("anxiety_level") 9 (by decide)).1
      (by decide),
   (C1_threshold_classification exampleForm ("sleep_quality") 2 (by decide)).2.1
      (by decide)⟩

/-- Claim C2: the collector produces a complete vector of all 20 scheduled
names in schedule order; an absent or unparseable entry becomes 5, and a
parsed integer is passed through unchanged, with no clamping to [1, 10]. -/
theorem C2_feature_collection (form : Form) :
    (feature_values form).map Prod.fst = MODEL_FEATURE_ORDER ∧
    (input_data form).length = 20 ∧
    ∀ f, f ∈ MODEL_FEATURE_ORDER →
      (form f = none → collectValue form f = 5) ∧
      (∀ s, form f = some s → pyInt? s = none → collectValue form f = 5) ∧
      (∀ s n, form f = some s → pyInt? s = some n → collectValue form f = n) := by
  refine ⟨feature_values_map_fst form, by simp [input_data]; rfl, ?_⟩
  intro f _
  refine ⟨?_, ?_, ?_⟩
  · intro hnone
    simp [collectValue, hnone]
  · intro s hs hp
    simp [collectValue, hs, hp]
  · intro s n hs hp
    simp [collectValue, hs, hp]

/-- Witness for C2 at a concrete form: the out-of-range 99 and 0 pass
through unchanged, the non-numeric and the missing field default to 5. -/
theorem C2_feature_collection_witness :
    collectValue exampleForm2 ("anxiety_level") = 99 ∧
    collectValue exampleForm2 ("self_esteem") = 0 ∧
    collectValue exampleForm2 ("bullying") = 5 ∧
    collectValue exampleForm2 ("depression") = 5 := by
  have h := C2_feature_collection exampleForm2
  refine ⟨?_, ?_, ?_, ?_⟩
  · exact (h.2.2 ("anxiety_level") (by decide)).2.2 ("99") 99 (by decide) (by decide)
  · exact (h.2.2 ("self_esteem") (by decide)).2.2 ("0") 0 (by decide) (by decide)
  · exact (h.2.2 ("bullying") (by decide)).2.1 ("abc") (by decide) (by decide)
  · exact (h.2.2 ("depression") (by decide)).1 (by decide)

/-- Claim C3: the predicted stress label is the label, in index order
Low, Medium, High, of the maximum-probability entry of the classifier's
triple, and on a tie the lowest index wins. -/
theorem C3_argmax_label (p0 p1 p2 : ℚ) (i : Nat)
    (h : npArgmax? [p0, p1, p2] = some i) :
    (∃ L, stress_labels.get? i = some L) ∧
    [p0, p1, p2].get? i = some (max p0 (max p1 p2)) ∧
    ∀ j, j < i → [p0, p1, p2].get? j ≠ some (max p0 (max p1 p2)) := by
  rw [npArgmax_triple] at h
  have hi := Option.some.inj h
  by_cases h1 : p0 < p1
  · by_cases h2 : p1 < p2
    · simp only [h1, h2, if_true] at hi
      subst hi
      have hM : max p0 (max p1 p2) = p2 := by
        rw [max_eq_right (le_of_lt h2), max_eq_right (le_of_lt (lt_trans h1 h2))]
      refine ⟨⟨"High", rfl⟩, by simp [hM], ?_⟩
      intro j hj
      interval_cases j
      · simp only [List.get?, ne_eq, Option.some.injEq, hM]
        exact ne_of_lt (lt_trans h1 h2)
      · simp only [List.get?, ne_eq, Option.some.injEq, hM]
        exact ne_of_lt h2
    · simp only [h1, h2, if_true, if_false] at hi
      subst hi
      have hM : max p0 (max p1 p2) = p1 := by
        rw [max_eq_left (not_lt.mp h2), max_eq_right (le_of_lt h1)]
      refine ⟨⟨"Medium", rfl⟩, by simp [hM], ?_⟩
      intro j hj
      interval_cases j
      simp only [List.get?, ne_eq, Option.some.injEq, hM]
      exact ne_of_lt h1
  · by_cases h2 : p0 < p2
    · simp only [h1, h2, if_true, if_false] at hi
      subst hi
      have hM : max p0 (max p1 p2) = p2 := by
        rw [max_eq_right (le_of_lt (lt_of_le_of_lt (not_lt.mp h1) h2)),
          max_eq_right (le_of_lt h2)]
      refine ⟨⟨"High", rfl⟩, by simp [hM], ?_⟩
      intro j hj
      interval_cases j
      · simp only [List.get?, ne_eq, Option.some.injEq, hM]
        exact ne_of_lt h2
      · simp only [List.get?, ne_eq, Option.some.injEq, hM]
        exact ne_of_lt (lt_of_le_of_lt (not_lt.mp h1) h2)
    · simp only [h1, h2, if_false] at hi
      subst hi
      have hM : max p0 (max p1 p2) = p0 := by
        rw [max_eq_left (max_le (not_lt.mp h1) (not_lt.mp h2))]
      refine ⟨⟨"Low", rfl⟩, by simp [hM], ?_⟩
      intro j hj
      exact absurd hj (Nat.not_lt_zero j)

/-- Witness for C3 on a concrete tie: with probabilities 1, 1, 0 the
arg-max index is 0, the lowest of the tied indices, labelled Low. -/
theorem C3_argmax_label_witness :
    (∃ L, stress_labels.get? 0 = some L) ∧
    [(1 : ℚ), 1, 0].get? 0 = some (max 1 (max 1 0)) ∧
    ∀ j, j < 0 → [(1 : ℚ), 1, 0].get? j ≠ some (max 1 (max 1 0)) :=
  C3_argmax_label 1 1 0 0 (by decide)

/-- Claim C4: when the classifier's probability triple sums to 1, the three
reported output probabilities (each classifier probability times 100) sum
to 100. -/
theorem C4_probabilities_sum (form : Form)
    (classifier : List Int → Except String (List ℚ)) (p0 p1 p2 : ℚ)
    (hc : classifier (input_data form) = Except.ok [p0, p1, p2])
    (hsum : p0 + p1 + p2 = 1) (r : PredictionResult)
    (hr : score classifier form = Except.ok r) :
    r.probLow + r.probMedium + r.probHigh = 100 := by
  unfold score at hr
  rw [hc] at hr
  dsimp only at hr
  rw [npArgmax_triple] at hr
  by_cases h1 : p0 < p1
  · by_cases h2 : p1 < p2
    · simp only [h1, h2, if_true, if_false, stress_labels, List.get?,
        Except.ok.injEq] at hr
      subst hr
      simp only
      linarith
    · simp only [h1, h2, if_true, if_false, stress_labels, List.get?,
        Except.ok.injEq] at hr
      subst hr
      simp only
      linarith
  · by_cases h2 : p0 < p2
    · simp only [h1, h2, if_true, if_false, stress_labels, List.get?,
        Except.ok.injEq] at hr
      subst hr
      simp only
      linarith
    · simp only [h1, h2, if_true, if_false, stress_labels, List.get?,
        Except.ok.injEq] at hr
      subst hr
      simp only
      linarith

/-- Witness for C4 on a concrete classifier returning the triple 1, 0, 0. -/
theorem C4_probabilities_sum_witness :
    ∃ r, score (fun _ => Except.ok [(1 : ℚ), 0, 0]) form0 = Except.ok r ∧
      r.probLow + r.probMedium + r.probHigh = 100 := by
  have hok : (score (fun _ => Except.ok [(1 : ℚ), 0, 0]) form0).isOk = true := by
    decide
  cases h : score (fun _ => Except.ok [(1 : ℚ), 0, 0]) form0 with
  | error e =>
    rw [h] at hok
    simp [Except.isOk, Except.toBool] at hok
  | ok r =>
    exact ⟨r, rfl,
      C4_probabilities_sum form0 (fun _ => Except.ok [(1 : ℚ), 0, 0]) 1 0 0 rfl
        (by simp) r h⟩

/-- Claim C5: the packed recommendations text is an "Affected Parameters:"
section listing the attention items when non-empty, a blank separator line
when both sections are present, and a "Parameters to Maintain:" section
listing the maintain items when non-empty, each feature name humanized by
replacing underscores with spaces and title-casing; with both buckets
empty it is exactly the single fallback line. -/
theorem C5_packed_text (affected maintain : List RecItem) :
    recommendations_packed affected maintain =
      (if affected = [] ∧ maintain = [] then
        "No specific high-risk parameters detected. Inputs look balanced."
      else
        String.intercalate ("\n")
          ((if affected = [] then []
            else "Affected Parameters:" ::
              affected.map (fun r =>
                pyTitle (String.replace (r.factor) ("_") (" ")) ++ " (" ++
                  toString r.value ++ "): " ++ r.tip))
           ++ (if affected = [] ∨ maintain = [] then [] else [""])
           ++ (if maintain = [] then []
               else "Parameters to Maintain:" ::
                 maintain.map (fun r =>
                   pyTitle (String.replace (r.factor) ("_") (" ")) ++ " (" ++
                     toString r.value ++ "): " ++ r.tip)))) := by
  have hIL : (fun r : RecItem =>
      pyTitle (String.replace (r.factor) ("_") (" ")) ++ " (" ++
        toString r.value ++ "): " ++ r.tip) = itemLine := rfl
  cases affected with
  | nil =>
    cases maintain with
    | nil => rfl
    | cons m ms =>
      simp [recommendations_packed, packLines, hIL]
  | cons a as =>
    cases maintain with
    | nil =>
      simp [recommendations_packed, packLines, hIL]
    | cons m ms =>
      simp [recommendations_packed, packLines, hIL]

/-- Claim C6: the attention and maintain buckets of a collected feature
vector are disjoint by feature name, and each feature appears at most once
across the two lists. -/
theorem C6_buckets_disjoint (form : Form) :
    List.Disjoint
      ((affectedOf (feature_values form)).map RecItem.factor)
      ((maintainOf (feature_values form)).map RecItem.factor) ∧
    (((affectedOf (feature_values form)).map RecItem.factor) ++
      ((maintainOf (feature_values form)).map RecItem.factor)).Nodup := by
  have hdisj : List.Disjoint
      ((affectedOf (feature_values form)).map RecItem.factor)
      ((maintainOf (feature_values form)).map RecItem.factor) := by
    intro x hxa hxm
    obtain ⟨r, hr, hrx⟩ := List.mem_map.mp hxa
    obtain ⟨r2, hr2, hr2x⟩ := List.mem_map.mp hxm
    obtain ⟨p, hp, hge, rfl⟩ := mem_affectedOf.mp hr
    obtain ⟨q, hq, hnge, _, rfl⟩ := mem_maintainOf.mp hr2
    have hkey : p.1 = q.1 := by
      have h1 : p.1 = x := hrx
      have h2 : q.1 = x := hr2x
      rw [h1, h2]
    have hvp := snd_of_mem_feature_values hp
    have hvq := snd_of_mem_feature_values hq
    rw [hkey] at hvp
    rw [hvp, ← hvq] at hge
    exact hnge hge
  have hsub1 := affected_factors_sublist (feature_values form)
  have hsub2 := maintain_factors_sublist (feature_values form)
  rw [feature_values_map_fst] at hsub1 hsub2
  refine ⟨hdisj, ?_⟩
  rw [List.nodup_append]
  exact ⟨hsub1.nodup nodup_MODEL_FEATURE_ORDER,
    hsub2.nodup nodup_MODEL_FEATURE_ORDER, hdisj⟩

/-- Claim C7: with the model unavailable the route short-circuits before
scoring: it flashes the model-not-loaded message, produces no prediction
result, and returns normally (no exception reaches the caller), whatever
the classifier or the form. -/
theorem C7_model_unavailable
    (classifier : List Int → Except String (List ℚ)) (form : Form) :
    predictorPost false classifier form =
      Except.ok { flashes := [(MODEL_NOT_LOADED_MSG, "error")],
                  prediction := none } := rfl

/-- Claim C8: any exception raised during scoring is caught and turned into
the generic failure flash; the prediction result stays absent and the route
returns normally to the caller. -/
theorem C8_exception_caught
    (classifier : List Int → Except String (List ℚ)) (form : Form)
    (e : String) (h : score classifier form = Except.error e) :
    predictorPost true classifier form =
      Except.ok { flashes := [(PREDICTION_ERROR_MSG, "error")],
                  prediction := none } := by
  simp [predictorPost, h]

/-- Witness for C8: a classifier that raises makes the route flash the
generic failure message. -/
theorem C8_exception_caught_witness :
    predictorPost true (fun _ => Except.error ("boom")) form0 =
      Except.ok { flashes := [(PREDICTION_ERROR_MSG, "error")],
                  prediction := none } :=
  C8_exception_caught (fun _ => Except.error ("boom")) form0 ("boom") rfl

/-- Claim C9: bucketing is per-feature with no cross-feature interaction:
permuting the iteration order permutes each bucket (same result set), and
on the collected vector the display order of each bucket follows the fixed
20-name schedule order. -/
theorem C9_order_independence :
    (∀ fv fv2 : List (String × Int), fv.Perm fv2 →
      (affectedOf fv).Perm (affectedOf fv2) ∧
      (maintainOf fv).Perm (maintainOf fv2)) ∧
    ∀ form : Form,
      ((affectedOf (feature_values form)).map RecItem.factor).Sublist
        MODEL_FEATURE_ORDER ∧
      ((maintainOf (feature_values form)).map RecItem.factor).Sublist
        MODEL_FEATURE_ORDER := by
  constructor
  · intro fv fv2 hp
    constructor
    · rw [affectedOf_eq_filterMap, affectedOf_eq_filterMap]
      exact hp.filterMap _
    · rw [maintainOf_eq_filterMap, maintainOf_eq_filterMap]
      exact hp.filterMap _
  · intro form
    have hsub1 := affected_factors_sublist (feature_values form)
    have hsub2 := maintain_factors_sublist (feature_values form)
    rw [feature_values_map_fst] at hsub1 hsub2
    exact ⟨hsub1, hsub2⟩

/-- Witness for C9 on a concrete two-feature permutation. -/
theorem C9_order_independence_witness :
    (affectedOf [(("a" : String), (9 : Int)), ("b", 1)]).Perm
      (affectedOf [("b", 1), ("a", 9)]) ∧
    (maintainOf [(("a" : String), (9 : Int)), ("b", 1)]).Perm
      (maintainOf [("b", 1), ("a", 9)]) :=
  C9_order_independence.1 [("a", 9), ("b", 1)] [("b", 1), ("a", 9)]
    (by decide)

/-- Claim C10: the ordered list handed to the classifier and the mapping
consumed by the recommendation engine agree pointwise: at every schedule
index the classifier input equals the value stored under that index's
feature name. -/
theorem C10_classifier_engine_agree (form : Form) (i : Nat)
    (h : i < MODEL_FEATURE_ORDER.length) :
    ∃ name, MODEL_FEATURE_ORDER.get? i = some name ∧
      (input_data form).get? i = some (collectValue form name) ∧
      (feature_values form).lookup name = some (collectValue form name) := by
  obtain ⟨name, hname⟩ : ∃ name, MODEL_FEATURE_ORDER.get? i = some name :=
    ⟨MODEL_FEATURE_ORDER.get ⟨i, h⟩, List.get?_eq_get h⟩
  refine ⟨name, hname, ?_, ?_⟩
  · rw [input_data, List.get?_map, hname]
    rfl
  · have hmem : name ∈ MODEL_FEATURE_ORDER := List.get?_mem hname
    exact lookup_map_self hmem

/-- Witness for C10 at schedule index 0 of the empty form. -/
theorem C10_classifier_engine_agree_witness :
    ∃ name, MODEL_FEATURE_ORDER.get? 0 = some name ∧
      (input_data form0).get? 0 = some (collectValue form0 name) ∧
      (feature_values form0).lookup name = some (collectValue form0 name) :=
  C10_classifier_engine_agree form0 0 (by decide)

/-- Witness for C6 at a concrete form. -/
theorem C6_buckets_disjoint_witness :
    (((affectedOf (feature_values exampleForm)).map RecItem.factor) ++
      ((maintainOf (feature_values exampleForm)).map RecItem.factor)).Nodup :=
  (C6_buckets_disjoint exampleForm).2
